import Mathlib

/-!
# Verification of the investment-tax-calculator core

Shallow embedding of the cost-basis / settlement / orchestrator core of the
investment-tax-calculator repository, over exact rationals in place of Python
binary floats.  Each Python module is translated definition by definition:

* `src/cost_pool.py`   → `CostPool` and its `buy` / `sell` / `_cleanup` /
  `_record` operations.  Python exceptions are modelled by returning an
  `Except String` result paired with the post-state of the object (a raised
  exception leaves the Python object in whatever state it had when the
  `raise` executed; in this module every `raise` happens before any field
  mutation, which the translation reflects by returning the unchanged pool).
* `src/settlement.py`  → `SettlementCalculator` with the exchange-rate
  collaborator abstracted as a function-valued field, the option-symbol
  regular expression compiled to an executable character-list matcher, and
  Python `float(total)` conversion of the fee field modelled by `pyFloat`
  (the `try/except (ValueError, TypeError)` block is translated explicitly).
* `src/calculator.py`  → `TaxCalculator` with the database collaborator
  abstracted as two function-valued fields, replay expressed as structural
  recursion over the order list, and exception propagation by `Except`.
-/

set_option maxRecDepth 100000
set_option maxHeartbeats 1000000

/-- Epsilon tolerance `1e-9` used throughout `cost_pool.py` for flat
detection and the oversell guard. -/
def eps : ℚ := 1 / 1000000000

/-- `PoolTransaction` dataclass of `cost_pool.py`: record of a cost pool
state change. -/
structure PoolTransaction where
  side : String
  quantity : ℚ
  amount : ℚ
  avg_cost_after : ℚ
  quantity_after : ℚ
  total_cost_after : ℚ
deriving DecidableEq

/-- `CostPool` object state of `cost_pool.py`: weighted average cost pool
for a single symbol.  `_quantity` positive = long, negative = short;
`_total_cost` is total cost for long, total proceeds for short. -/
structure CostPool where
  symbol : String
  _quantity : ℚ
  _total_cost : ℚ
  _history : List PoolTransaction
deriving DecidableEq

/-- `CostPool.__init__`: fresh pool for a symbol. -/
def CostPool.init (symbol : String) : CostPool :=
  { symbol := symbol, _quantity := 0, _total_cost := 0, _history := [] }

/-- `avg_cost` property: per-unit weighted average cost (or proceeds for
short); 0 when `abs(_quantity) < 1e-9`. -/
def CostPool.avg_cost (p : CostPool) : ℚ :=
  if |p._quantity| < eps then 0 else p._total_cost / |p._quantity|

/-- `is_short` property: `_quantity < -1e-9`. -/
def CostPool.is_short (p : CostPool) : Bool :=
  decide (p._quantity < -eps)

/-- `is_long` property: `_quantity > 1e-9`. -/
def CostPool.is_long (p : CostPool) : Bool :=
  decide (p._quantity > eps)

/-- `_cleanup`: snap float dust to exact zero when the position is flat. -/
def CostPool._cleanup (p : CostPool) : CostPool :=
  if |p._quantity| < eps then { p with _quantity := 0, _total_cost := 0 } else p

/-- `_record`: append an audit entry to the history. -/
def CostPool._record (p : CostPool) (side : String) (qty amount : ℚ) : CostPool :=
  { p with _history := p._history ++
      [{ side := side, quantity := qty, amount := amount,
         avg_cost_after := p.avg_cost, quantity_after := p._quantity,
         total_cost_after := p._total_cost }] }

/-- `CostPool.buy`: process a buy.  Long or flat: adds to the long position
and returns 0.  Short: closes up to the short size at average proceeds,
returns the locked-in proceeds as cost basis, and opens a long with the
proportional remainder cost when the remainder exceeds epsilon. -/
def CostPool.buy (p : CostPool) (qty settled_amount : ℚ) :
    (Except String ℚ) × CostPool :=
  if qty ≤ 0 then (.error "Buy quantity must be positive", p)
  else if settled_amount < 0 then (.error "Settled amount cannot be negative", p)
  else if p.is_short then
    let close_qty := min qty |p._quantity|
    let cost_basis := close_qty * p.avg_cost
    let p1 : CostPool :=
      { p with _quantity := p._quantity + close_qty,
               _total_cost := p._total_cost - cost_basis }
    let p3 := (p1._cleanup)._record "BUY" close_qty cost_basis
    let remainder := qty - close_qty
    let p4 :=
      if remainder > eps then
        let remainder_cost := settled_amount * (remainder / qty)
        ({ p3 with _quantity := p3._quantity + remainder,
                   _total_cost := p3._total_cost + remainder_cost
         })._record "BUY" remainder remainder_cost
      else p3
    (.ok cost_basis, p4)
  else
    let p1 : CostPool :=
      { p with _quantity := p._quantity + qty,
               _total_cost := p._total_cost + settled_amount }
    (.ok 0, p1._record "BUY" qty settled_amount)

/-- `CostPool.sell`: process a sell.  Long: closes at average cost, with an
oversell guard at `quantity + 1e-9`, and returns the cost basis.  Flat or
short: opens or adds to a short position, requiring a positive settled
amount, and returns 0. -/
def CostPool.sell (p : CostPool) (qty settled_amount : ℚ) :
    (Except String ℚ) × CostPool :=
  if qty ≤ 0 then (.error "Sell quantity must be positive", p)
  else if p.is_long then
    if qty > p._quantity + eps then
      (.error "cannot sell more than holding", p)
    else
      let cost_basis := qty * p.avg_cost
      let p1 : CostPool :=
        { p with _quantity := p._quantity - qty,
                 _total_cost := p._total_cost - cost_basis }
      (.ok cost_basis, (p1._cleanup)._record "SELL" qty cost_basis)
  else
    if settled_amount ≤ 0 then
      (.error "sell-to-open requires positive settled_amount", p)
    else
      let p1 : CostPool :=
        { p with _quantity := p._quantity - qty,
                 _total_cost := p._total_cost + settled_amount }
      (.ok 0, p1._record "SELL" qty settled_amount)

/-- `true` exactly on the `.ok` results of a pool operation. -/
def exceptOk (e : Except String ℚ) : Bool :=
  match e with
  | .ok _ => true
  | .error _ => false

/-- Calendar date `YYYY-MM-DD`, the part of the execution timestamp kept by
`_parse_date` in `settlement.py` and `calculator.py`. -/
structure Date where
  year : Int
  month : Nat
  day : Nat
deriving DecidableEq

/-- Execution timestamp (ISO date plus time of day) as stored in the
`executed_at` column. -/
structure DateTime where
  date : Date
  hour : Nat
  minute : Nat
  second : Nat
deriving DecidableEq

/-- Outcome of Python `float(total)` on the `total_amount` value found in
the fee dict: the key may be missing (`.get` defaults to `0`), the value
may convert to a number, or the conversion may raise `ValueError` (a
non-numeric string) or `TypeError` (`None`, a dict, a list, ...). -/
inductive FeeTotalField where
  | missing
  | conv (q : ℚ)
  | valueError
  | typeError
deriving DecidableEq

/-- The `fees` field of an order after JSON decoding: either falsy (key
absent, `None`, or an empty dict — `if not fees` in `_extract_fees`) or a
non-empty dict carrying a `total_amount` entry. -/
inductive FeesField where
  | falsy
  | someDict (total : FeeTotalField)
deriving DecidableEq

/-- Python `float(total)` with `total = fees.get('total_amount', 0)`: `.ok`
with the numeric value, `.error` when the conversion raises. -/
def pyFloat (t : FeeTotalField) : Except String ℚ :=
  match t with
  | .missing => .ok 0
  | .conv q => .ok q
  | .valueError => .error "ValueError"
  | .typeError => .error "TypeError"

/-- `_extract_fees` of `settlement.py`: falsy fee data is 0; otherwise
`float(total)` guarded by `try/except (ValueError, TypeError)` returning 0
on failure. -/
def _extract_fees (fees : FeesField) : ℚ :=
  match fees with
  | .falsy => 0
  | .someDict t =>
    match pyFloat t with
    | .ok q => q
    | .error _ => 0

/-- One matched character class of the option pattern: a decimal digit. -/
def isDigitChar (c : Char) : Bool :=
  decide ('0' ≤ c) && decide (c ≤ '9')

/-- Tail of the option pattern after `\d+` has consumed its digits: the
literal suffix `.US` and end of string. -/
def matchDotUS (l : List Char) : Bool :=
  match l with
  | ['.', 'U', 'S'] => true
  | _ => false

/-- Matches `\d*\.US$`: zero or more digits then the literal `.US`. -/
def matchDigitsDotUS : List Char → Bool
  | [] => false
  | c :: rest =>
    if isDigitChar c then matchDigitsDotUS rest || matchDotUS (c :: rest)
    else matchDotUS (c :: rest)

/-- Matches `\d{6}[CP]\d+\.US$`: six digits, a call/put letter, at least one
strike digit, then `.US` at end of string. -/
def matchOptTail (l : List Char) : Bool :=
  match l with
  | d1 :: d2 :: d3 :: d4 :: d5 :: d6 :: c :: s1 :: rest =>
    isDigitChar d1 && isDigitChar d2 && isDigitChar d3 && isDigitChar d4 &&
    isDigitChar d5 && isDigitChar d6 && (c == 'C' || c == 'P') &&
    isDigitChar s1 && matchDigitsDotUS rest
  | _ => false

/-- Existential search implementing the `.+` prefix of `_OPTION_PATTERN`:
some split with a non-empty prefix leaves a tail matching
`\d{6}[CP]\d+\.US$`. -/
def hasOptTail : List Char → Bool
  | [] => false
  | _ :: rest => matchOptTail rest || hasOptTail rest

/-- `get_multiplier` of `settlement.py`: 100 for symbols matching the US
equity option pattern `^.+\d{6}[CP]\d+\.US$`, else 1. -/
def get_multiplier (symbol : String) : ℚ :=
  if hasOptTail symbol.toList then 100 else 1

/-- Trade/order record as read back from the orders table: identifier,
symbol, side string, quantity, per-unit price, currency code, execution
timestamp, and decoded fee data. -/
structure Order where
  order_id : String
  symbol : String
  side : String
  quantity : ℚ
  price : ℚ
  currency : String
  executed_at : DateTime
  fees : FeesField
deriving DecidableEq

/-- Exchange-rate collaborator (`exchange_rate.py` interface): a rate for a
date and a currency pair, always producing a usable number. -/
structure ExchangeRateManager where
  get_rate : Date → String → String → ℚ

/-- `SettlementCalculator` of `settlement.py`: settles raw trades into
reporting-currency (CNY) net amounts via the exchange-rate collaborator. -/
structure SettlementCalculator where
  exchange : ExchangeRateManager

/-- `_parse_date`: extract the `YYYY-MM-DD` date component from the
execution timestamp. -/
def _parse_date (executed_at : DateTime) : Date :=
  executed_at.date

/-- `_gross`: gross trade value in original currency,
`quantity * price * multiplier`. -/
def _gross (order : Order) : ℚ :=
  order.quantity * order.price * get_multiplier order.symbol

/-- `_get_rate`: exchange rate for the order's execution date, original
currency to CNY. -/
def SettlementCalculator._get_rate (s : SettlementCalculator) (order : Order) : ℚ :=
  s.exchange.get_rate (_parse_date order.executed_at) order.currency "CNY"

/-- `settle_buy`: total buy cost in CNY,
`(quantity * price * multiplier + fees) * exchange_rate`. -/
def SettlementCalculator.settle_buy (s : SettlementCalculator) (order : Order) : ℚ :=
  (_gross order + _extract_fees order.fees) * s._get_rate order

/-- `settle_sell_with_rate`: total sell proceeds in CNY and the rate used,
`(quantity * price * multiplier - fees) * exchange_rate`. -/
def SettlementCalculator.settle_sell_with_rate (s : SettlementCalculator)
    (order : Order) : ℚ × ℚ :=
  ((_gross order - _extract_fees order.fees) * s._get_rate order, s._get_rate order)

/-- `get_rate_for_order`: public accessor for the rate. -/
def SettlementCalculator.get_rate_for_order (s : SettlementCalculator)
    (order : Order) : ℚ :=
  s._get_rate order

/-- Taxable transaction dict built by `_build_tx` in `calculator.py`. -/
structure TaxTx where
  order_id : String
  symbol : String
  date : Date
  quantity : ℚ
  price : ℚ
  currency : String
  rate : ℚ
  proceeds_cny : ℚ
  cost_basis_cny : ℚ
  gain_loss : ℚ
  tax : ℚ
deriving DecidableEq

/-- Per-symbol summary dict produced by `_process_symbol`. -/
structure SymbolSummary where
  symbol : String
  gains : ℚ
  losses : ℚ
  remaining_qty : ℚ
  remaining_cost : ℚ
deriving DecidableEq

/-- Return value of `_process_symbol`: the year's taxable transactions and
the per-symbol summary. -/
structure SymbolResult where
  transactions : List TaxTx
  summary : SymbolSummary
deriving DecidableEq

/-- Database collaborator (`database.py` interface): the two queries the
calculator issues. -/
structure DatabaseManager where
  get_symbols_with_sells : Int → List String
  get_orders_until : String → Int → List Order

/-- `TaxCalculator` of `calculator.py`. -/
structure TaxCalculator where
  db : DatabaseManager
  settlement : SettlementCalculator
  tax_rate : ℚ

/-- `_in_year`: whether the order's execution timestamp falls in the target
year. -/
def TaxCalculator._in_year (order : Order) (year : Int) : Bool :=
  order.executed_at.date.year == year

/-- `_build_tx`: assemble a taxable transaction record. -/
def TaxCalculator._build_tx (c : TaxCalculator) (order : Order) (rate : ℚ)
    (proceeds_cny cost_basis_cny gain_loss : ℚ) : TaxTx :=
  { order_id := order.order_id
    symbol := order.symbol
    date := _parse_date order.executed_at
    quantity := order.quantity
    price := order.price
    currency := order.currency
    rate := rate
    proceeds_cny := proceeds_cny
    cost_basis_cny := cost_basis_cny
    gain_loss := gain_loss
    tax := max 0 gain_loss * c.tax_rate }

/-- Mutable loop state of the `for order in orders` loop in
`_process_symbol`: the pool and the accumulators. -/
structure ReplayState where
  pool : CostPool
  transactions : List TaxTx
  total_gains : ℚ
  total_losses : ℚ
deriving DecidableEq

/-- One iteration of the `_process_symbol` loop: settle the order, feed the
pool, and emit a taxable transaction when a position was closed in the
target year.  Orders with a side other than `BUY`/`SELL` leave the state
untouched; a pool error propagates as in Python. -/
def TaxCalculator._process_order (c : TaxCalculator) (year : Int)
    (st : ReplayState) (order : Order) : Except String ReplayState :=
  let in_year := TaxCalculator._in_year order year
  if order.side = "BUY" then
    let settled_cost := c.settlement.settle_buy order
    let r := st.pool.buy order.quantity settled_cost
    match r.1 with
    | .error e => .error e
    | .ok cost_basis =>
      if cost_basis > 0 ∧ in_year = true then
        let proceeds_cny := cost_basis
        let cost_cny := settled_cost
        let gain_loss := proceeds_cny - cost_cny
        let rate := c.settlement.get_rate_for_order order
        let tx := c._build_tx order rate proceeds_cny cost_cny gain_loss
        .ok { pool := r.2
              transactions := st.transactions ++ [tx]
              total_gains :=
                if gain_loss > 0 then st.total_gains + gain_loss else st.total_gains
              total_losses :=
                if gain_loss > 0 then st.total_losses else st.total_losses + |gain_loss| }
      else
        .ok { st with pool := r.2 }
  else if order.side = "SELL" then
    let pr := c.settlement.settle_sell_with_rate order
    let r := st.pool.sell order.quantity pr.1
    match r.1 with
    | .error e => .error e
    | .ok cost_basis =>
      if cost_basis > 0 ∧ in_year = true then
        let gain_loss := pr.1 - cost_basis
        let tx := c._build_tx order pr.2 pr.1 cost_basis gain_loss
        .ok { pool := r.2
              transactions := st.transactions ++ [tx]
              total_gains :=
                if gain_loss > 0 then st.total_gains + gain_loss else st.total_gains
              total_losses :=
                if gain_loss > 0 then st.total_losses else st.total_losses + |gain_loss| }
      else
        .ok { st with pool := r.2 }
  else
    .ok st

/-- The `for order in orders` loop of `_process_symbol`, with Python
exception propagation. -/
def TaxCalculator.processOrders (c : TaxCalculator) (year : Int) :
    List Order → ReplayState → Except String ReplayState
  | [], st => .ok st
  | o :: rest, st =>
    match c._process_order year st o with
    | .error e => .error e
    | .ok st' => c.processOrders year rest st'

/-- `_process_symbol`: replay the symbol's full history through a fresh
pool and collect the target year's taxable transactions plus the summary. -/
def TaxCalculator._process_symbol (c : TaxCalculator) (symbol : String)
    (year : Int) : Except String SymbolResult :=
  let orders := c.db.get_orders_until symbol year
  match c.processOrders year orders
      { pool := CostPool.init symbol, transactions := [],
        total_gains := 0, total_losses := 0 } with
  | .error e => .error e
  | .ok st =>
    .ok { transactions := st.transactions
          summary := { symbol := symbol
                       gains := st.total_gains
                       losses := st.total_losses
                       remaining_qty := st.pool._quantity
                       remaining_cost := st.pool._total_cost } }

/-- Result dict of `calculate`: the summary dict keeps insertion order, so
it is modelled as an association list. -/
structure CalcResult where
  year : Int
  total_gains : ℚ
  total_losses : ℚ
  net_gains : ℚ
  total_tax : ℚ
  details : List TaxTx
  summary : List (String × SymbolSummary)
deriving DecidableEq

/-- `_empty_result`. -/
def TaxCalculator._empty_result (year : Int) : CalcResult :=
  { year := year, total_gains := 0, total_losses := 0, net_gains := 0,
    total_tax := 0, details := [], summary := [] }

/-- The `for symbol in symbols` loop of `calculate`: accumulate details,
summary entries and gain/loss totals. -/
def TaxCalculator.calcLoop (c : TaxCalculator) (year : Int) :
    List String → CalcResult → Except String CalcResult
  | [], results => .ok results
  | symbol :: rest, results =>
    match c._process_symbol symbol year with
    | .error e => .error e
    | .ok r =>
      c.calcLoop year rest
        { results with
            details := results.details ++ r.transactions
            summary := results.summary ++ [(symbol, r.summary)]
            total_gains := results.total_gains + r.summary.gains
            total_losses := results.total_losses + r.summary.losses }

/-- `calculate`: the year's capital gains tax result. -/
def TaxCalculator.calculate (c : TaxCalculator) (year : Int) :
    Except String CalcResult :=
  let symbols := c.db.get_symbols_with_sells year
  if symbols = [] then .ok (TaxCalculator._empty_result year)
  else
    match c.calcLoop year symbols (TaxCalculator._empty_result year) with
    | .error e => .error e
    | .ok results =>
      let net_gains := max 0 (results.total_gains - results.total_losses)
      .ok { results with net_gains := net_gains,
                         total_tax := net_gains * c.tax_rate }

/-- Transactions of a successful replay step, `none` on a propagated
exception. -/
def stepTxs (r : Except String ReplayState) : Option (List TaxTx) :=
  match r with
  | .ok st => some st.transactions
  | .error _ => none

/-- Pool of a successful replay step, `none` on a propagated exception. -/
def stepPool (r : Except String ReplayState) : Option CostPool :=
  match r with
  | .ok st => some st.pool
  | .error _ => none

/-- Transactions of a successful `_process_symbol` run. -/
def symTxs (r : Except String SymbolResult) : Option (List TaxTx) :=
  match r with
  | .ok sr => some sr.transactions
  | .error _ => none

/-- Sum of the per-symbol `gains` entries of a summary association list. -/
def summaryGains (l : List (String × SymbolSummary)) : ℚ :=
  (l.map (fun e => e.2.gains)).sum

/-- Sum of the per-symbol `losses` entries of a summary association list. -/
def summaryLosses (l : List (String × SymbolSummary)) : ℚ :=
  (l.map (fun e => e.2.losses)).sum

/-- Constant-rate exchange collaborator used in concrete runs. -/
def wRate : ExchangeRateManager := ⟨fun _ _ _ => 1⟩

/-- Settlement calculator over the constant rate. -/
def wSettle : SettlementCalculator := ⟨wRate⟩

/-- Concrete in-year buy order: 10 units at 2 USD on 2024-01-02, no fees. -/
def wBuyOrder : Order :=
  { order_id := "B1", symbol := "A", side := "BUY", quantity := 10, price := 2,
    currency := "USD", executed_at := ⟨⟨2024, 1, 2⟩, 0, 0, 0⟩, fees := .falsy }

/-- Concrete in-year sell order: 10 units at 3 USD on 2024-06-02, no fees. -/
def wSellOrder : Order :=
  { order_id := "S1", symbol := "A", side := "SELL", quantity := 10, price := 3,
    currency := "USD", executed_at := ⟨⟨2024, 6, 2⟩, 0, 0, 0⟩, fees := .falsy }

/-- Concrete database: one symbol with the buy/sell pair above. -/
def wDb : DatabaseManager :=
  ⟨fun _ => ["A"], fun _ _ => [wBuyOrder, wSellOrder]⟩

/-- Concrete calculator at tax rate 20%. -/
def wCalc : TaxCalculator := ⟨wDb, wSettle, 1 / 5⟩

/-- Expected taxable transaction of the concrete run. -/
def wTx : TaxTx :=
  { order_id := "S1", symbol := "A", date := ⟨2024, 6, 2⟩, quantity := 10,
    price := 3, currency := "USD", rate := 1, proceeds_cny := 30,
    cost_basis_cny := 20, gain_loss := 10, tax := 2 }

/-- Expected result of the concrete run. -/
def wRes : CalcResult :=
  { year := 2024, total_gains := 10, total_losses := 0, net_gains := 10,
    total_tax := 2, details := [wTx],
    summary := [("A", ⟨"A", 10, 0, 0, 0⟩)] }

/-- Year-boundary buy order: 10 units at 2 USD executed on 2023-07-01. -/
def wBuyOrder23 : Order :=
  { order_id := "B3", symbol := "A", side := "BUY", quantity := 10, price := 2,
    currency := "USD", executed_at := ⟨⟨2023, 7, 1⟩, 0, 0, 0⟩, fees := .falsy }

/-- Year-boundary sell order: 4 units at 3 USD executed on 2024-03-01. -/
def wSellOrder24 : Order :=
  { order_id := "S4", symbol := "A", side := "SELL", quantity := 4, price := 3,
    currency := "USD", executed_at := ⟨⟨2024, 3, 1⟩, 0, 0, 0⟩, fees := .falsy }

/-- Year-boundary database: orders until 2024 are the 2023 buy and the
2024 sell; orders until 2023 are the 2023 buy alone. -/
def wDb2 : DatabaseManager :=
  ⟨fun _ => ["A"],
   fun _ y => if y = 2024 then [wBuyOrder23, wSellOrder24] else [wBuyOrder23]⟩

/-- Year-boundary calculator. -/
def wCalc2 : TaxCalculator := ⟨wDb2, wSettle, 1 / 5⟩

lemma eps_pos : (0 : ℚ) < eps := by norm_num [eps]

lemma is_long_iff (p : CostPool) : p.is_long = true ↔ eps < p._quantity := by
  simp [CostPool.is_long]

lemma is_short_iff (p : CostPool) : p.is_short = true ↔ p._quantity < -eps := by
  simp [CostPool.is_short]

lemma record_quantity (p : CostPool) (s : String) (q a : ℚ) :
    (p._record s q a)._quantity = p._quantity := rfl

lemma record_total (p : CostPool) (s : String) (q a : ℚ) :
    (p._record s q a)._total_cost = p._total_cost := rfl

lemma record_avg (p : CostPool) (s : String) (q a : ℚ) :
    (p._record s q a).avg_cost = p.avg_cost := rfl

/-- Closed form of `sell` in the successful long-close branch. -/
lemma sell_long_ok (p : CostPool) (qty a : ℚ) (hl : p.is_long = true)
    (h0 : 0 < qty) (hg : qty ≤ p._quantity + eps) :
    p.sell qty a =
      (.ok (qty * p.avg_cost),
       (({ p with _quantity := p._quantity - qty,
                  _total_cost := p._total_cost - qty * p.avg_cost
         } : CostPool)._cleanup)._record "SELL" qty (qty * p.avg_cost)) := by
  rw [CostPool.sell, if_neg (not_le.mpr h0), if_pos hl, if_neg (not_lt.mpr hg)]

/-- Closed form of `buy` in the flat-or-long branch. -/
lemma buy_not_short (p : CostPool) (qty a : ℚ) (h0 : 0 < qty) (ha : 0 ≤ a)
    (hns : p.is_short = false) :
    p.buy qty a =
      (.ok 0,
       ({ p with _quantity := p._quantity + qty,
                 _total_cost := p._total_cost + a } : CostPool)._record "BUY" qty a) := by
  rw [CostPool.buy, if_neg (not_le.mpr h0), if_neg (not_lt.mpr ha)]
  rw [hns]
  simp

/-- C10.  When the pool is long and the sell stays within the held
quantity, neither the returned cost basis nor the post-state depends on
the `settled_amount` argument: the proceeds argument is ignored when
closing a long position. -/
theorem claim_C10_long_close_ignores_settled (p : CostPool) (qty a1 a2 : ℚ)
    (hl : p.is_long = true) (h0 : 0 < qty) (hq : qty ≤ p._quantity) :
    p.sell qty a1 = p.sell qty a2 := by
  have hg : qty ≤ p._quantity + eps := le_trans hq (by linarith [eps_pos])
  rw [sell_long_ok p qty a1 hl h0 hg, sell_long_ok p qty a2 hl h0 hg]

/-- C10 witness: two sells of 5 units out of 10 that differ only in the
settled amount produce identical results. -/
theorem claim_C10_long_close_ignores_settled_witness :
    (((CostPool.init "W").buy 10 100).2).sell 5 7 =
      (((CostPool.init "W").buy 10 100).2).sell 5 9999 :=
  claim_C10_long_close_ignores_settled (((CostPool.init "W").buy 10 100).2) 5 7 9999
    (by with_unfolding_all decide) (by norm_num) (by with_unfolding_all decide)

/-- C3 counterexample.  The oversell guard fires only beyond
`quantity + 1e-9`: selling `10 + 1e-10` out of a long position of 10 units
is strictly more than the holding, yet the call succeeds instead of
raising. -/
theorem claim_C3_oversell_counterexample :
    (((CostPool.init "T").buy 10 100).2)._quantity < 10 + 1 / 10000000000 ∧
    exceptOk ((((CostPool.init "T").buy 10 100).2).sell (10 + 1 / 10000000000) 0).1
      = true := by
  with_unfolding_all decide

/-- C3 amended.  Selling more than `quantity + ε` from a long position
raises and leaves the pool exactly unchanged (quantity, total cost and
history); a quantity exceeding the holding by at most ε is instead accepted
as a full close. -/
theorem claim_C3_oversell_amended (p : CostPool) (qty a : ℚ)
    (hl : p.is_long = true) (h : p._quantity + eps < qty) :
    (p.sell qty a).1 = .error "cannot sell more than holding" ∧
    (p.sell qty a).2 = p := by
  have hq : eps < p._quantity := (is_long_iff p).mp hl
  have h0 : ¬ qty ≤ 0 := by push_neg; linarith [eps_pos]
  rw [CostPool.sell, if_neg h0, if_pos hl, if_pos h]
  exact ⟨rfl, rfl⟩

/-- C3 amended witness: overselling 20 out of 10 raises and the pool state
is untouched. -/
theorem claim_C3_oversell_amended_witness :
    ((((CostPool.init "W").buy 10 100).2).sell 20 0).1 =
      .error "cannot sell more than holding" ∧
    ((((CostPool.init "W").buy 10 100).2).sell 20 0).2 =
      ((CostPool.init "W").buy 10 100).2 :=
  claim_C3_oversell_amended (((CostPool.init "W").buy 10 100).2) 20 0
    (by with_unfolding_all decide) (by with_unfolding_all decide)

/-- C9 counterexample.  On a pool that is already short, a further sell
with `settled_amount = 0` does not succeed: the positive-settled-amount
guard applies to every sell taken while not long, not only when opening
from flat. -/
theorem claim_C9_short_add_counterexample :
    (((CostPool.init "T").sell 1 100).2).is_short = true ∧
    exceptOk ((((CostPool.init "T").sell 1 100).2).sell 1 0).1 = false := by
  with_unfolding_all decide

/-- C9 amended.  Whenever the pool is not long (flat or short), a sell with
positive quantity requires a positive settled amount: with it, the sell
adds to the short position (`quantity -= qty`, `total += settled_amount`)
and returns cost basis 0; without it, the call raises and the pool is
unchanged. -/
theorem claim_C9_short_open_amended (p : CostPool) (qty a : ℚ)
    (hnl : p.is_long = false) (h0 : 0 < qty) :
    (0 < a →
      (p.sell qty a).1 = .ok 0 ∧
      (p.sell qty a).2._quantity = p._quantity - qty ∧
      (p.sell qty a).2._total_cost = p._total_cost + a) ∧
    (a ≤ 0 →
      (p.sell qty a).1 = .error "sell-to-open requires positive settled_amount" ∧
      (p.sell qty a).2 = p) := by
  rw [CostPool.sell, if_neg (not_le.mpr h0)]
  rw [hnl]
  constructor
  · intro ha
    rw [if_neg (by simp), if_neg (not_le.mpr ha)]
    exact ⟨rfl, rfl, rfl⟩
  · intro ha
    rw [if_neg (by simp), if_pos ha]
    exact ⟨rfl, rfl⟩

/-- C9 amended witness: a short add with positive settled amount succeeds
with the stated state change, and one with settled amount 0 raises with the
pool unchanged. -/
theorem claim_C9_short_open_amended_witness :
    (((((CostPool.init "W").sell 1 100).2).sell 2 50).1 = .ok 0 ∧
     ((((CostPool.init "W").sell 1 100).2).sell 2 50).2._quantity =
       (((CostPool.init "W").sell 1 100).2)._quantity - 2 ∧
     ((((CostPool.init "W").sell 1 100).2).sell 2 50).2._total_cost =
       (((CostPool.init "W").sell 1 100).2)._total_cost + 50) ∧
    (((((CostPool.init "W").sell 1 100).2).sell 2 0).1 =
       .error "sell-to-open requires positive settled_amount" ∧
     ((((CostPool.init "W").sell 1 100).2).sell 2 0).2 =
       ((CostPool.init "W").sell 1 100).2) :=
  ⟨(claim_C9_short_open_amended (((CostPool.init "W").sell 1 100).2) 2 50
      (by with_unfolding_all decide) (by norm_num)).1 (by norm_num),
   (claim_C9_short_open_amended (((CostPool.init "W").sell 1 100).2) 2 0
      (by with_unfolding_all decide) (by norm_num)).2 le_rfl⟩

/-- C5 counterexample.  A partial sell of `qty < quantity` that leaves less
than ε of the position behind triggers the flat snap, so the average cost
of what remains drops to 0 instead of being preserved: buy 1 unit at 100,
then sell `1 - 1e-10` of it. -/
theorem claim_C5_avg_preserved_counterexample :
    (((CostPool.init "T").buy 1 100).2).is_long = true ∧
    (0 : ℚ) < 1 - 1 / 10000000000 ∧
    (1 - 1 / 10000000000 : ℚ) < (((CostPool.init "T").buy 1 100).2)._quantity ∧
    (((CostPool.init "T").buy 1 100).2).avg_cost = 100 ∧
    ((((CostPool.init "T").buy 1 100).2).sell (1 - 1 / 10000000000) 0).2.avg_cost
      = 0 := by
  with_unfolding_all decide

/-- C5 amended.  For a long pool, any partial sell that leaves at least ε
of the position succeeds, returns cost basis `qty * avg_cost`, and leaves
`avg_cost` unchanged; a partial sell leaving a sub-ε remainder instead
snaps the pool flat (average 0). -/
theorem claim_C5_avg_preserved_amended (p : CostPool) (qty a : ℚ)
    (hl : p.is_long = true) (h0 : 0 < qty)
    (hq : qty ≤ p._quantity - eps) :
    (p.sell qty a).1 = .ok (qty * p.avg_cost) ∧
    (p.sell qty a).2.avg_cost = p.avg_cost := by
  have hql : eps < p._quantity := (is_long_iff p).mp hl
  have hg : qty ≤ p._quantity + eps := by linarith [eps_pos]
  rw [sell_long_ok p qty a hl h0 hg]
  refine ⟨rfl, ?_⟩
  have hrem : eps ≤ p._quantity - qty := by linarith
  have hrem' : ¬ |p._quantity - qty| < eps := by
    rw [abs_of_pos (by linarith [eps_pos])]
    exact not_lt.mpr hrem
  rw [record_avg, CostPool._cleanup]
  rw [if_neg hrem']
  rw [CostPool.avg_cost, CostPool.avg_cost]
  rw [if_neg hrem']
  rw [if_neg (by rw [abs_of_pos (by linarith [eps_pos])]; exact not_lt.mpr (le_of_lt hql))]
  rw [abs_of_pos (by linarith [eps_pos]), abs_of_pos (by linarith [eps_pos])]
  have hq0 : p._quantity ≠ 0 := ne_of_gt (by linarith [eps_pos])
  have hd0 : p._quantity - qty ≠ 0 := ne_of_gt (by linarith [eps_pos])
  field_simp
  ring

/-- C5 amended witness (concrete scenario 2): buy 30 at 30000 and 30 at
31500 gives average 1025; selling 30 returns cost basis 30750 and the
average stays 1025. -/
theorem claim_C5_avg_preserved_amended_witness :
    ((((CostPool.init "W").buy 30 30000).2).buy 30 31500).2.avg_cost = 1025 ∧
    (((((CostPool.init "W").buy 30 30000).2).buy 30 31500).2.sell 30 0).1
      = .ok 30750 ∧
    (((((CostPool.init "W").buy 30 30000).2).buy 30 31500).2.sell 30 0).2.avg_cost
      = 1025 := by
  have havg : ((((CostPool.init "W").buy 30 30000).2).buy 30 31500).2.avg_cost
      = 1025 := by with_unfolding_all decide
  have h := claim_C5_avg_preserved_amended
    ((((CostPool.init "W").buy 30 30000).2).buy 30 31500).2 30 0
    (by with_unfolding_all decide) (by norm_num) (by with_unfolding_all decide)
  refine ⟨havg, ?_, ?_⟩
  · rw [h.1, havg]
    exact congrArg Except.ok (by norm_num)
  · rw [h.2, havg]

/-- C2 counterexample.  When a buy overshoots the short size by no more
than ε, the remainder does not open a long position: after a short of 2
units, buying `2 + 1e-10` units leaves the pool flat (quantity exactly 0)
instead of long by the remainder. -/
theorem claim_C2_short_close_counterexample :
    (((CostPool.init "T").sell 2 5000).2).is_short = true ∧
    |(((CostPool.init "T").sell 2 5000).2)._quantity| < 2 + 1 / 10000000000 ∧
    (2 + 1 / 10000000000 : ℚ) - |(((CostPool.init "T").sell 2 5000).2)._quantity|
      ≠ 0 ∧
    ((((CostPool.init "T").sell 2 5000).2).buy (2 + 1 / 10000000000) 7665).2._quantity
      = 0 := by
  with_unfolding_all decide

/-- C2 amended.  A buy over a short pool returns cost basis
`min(qty, |quantity|) * avg_cost` regardless of the settled amount; when
`qty` exceeds the short size, the remainder opens a long position with
proportional cost `settledAmount * remainder/qty` only when the remainder
exceeds ε, while a remainder of at most ε is discarded, leaving the pool
flat at exactly zero. -/
theorem claim_C2_short_close_amended (p : CostPool) (qty a : ℚ)
    (hs : p.is_short = true) (h0 : 0 < qty) (ha : 0 ≤ a) :
    (p.buy qty a).1 = .ok (min qty |p._quantity| * p.avg_cost) ∧
    (|p._quantity| < qty → eps < qty - |p._quantity| →
      (p.buy qty a).2._quantity = qty - |p._quantity| ∧
      (p.buy qty a).2._total_cost = a * ((qty - |p._quantity|) / qty)) ∧
    (|p._quantity| < qty → qty - |p._quantity| ≤ eps →
      (p.buy qty a).2._quantity = 0 ∧
      (p.buy qty a).2._total_cost = 0) := by
  have hq : p._quantity < -eps := (is_short_iff p).mp hs
  have habs : |p._quantity| = -p._quantity := abs_of_neg (by linarith [eps_pos])
  have hq0 : p._quantity + |p._quantity| = 0 := by rw [habs]; ring
  rw [CostPool.buy, if_neg (not_le.mpr h0), if_neg (not_lt.mpr ha), hs, if_pos rfl]
  refine ⟨rfl, ?_, ?_⟩
  · intro hlt hrem
    rw [min_eq_right hlt.le]
    dsimp only [CostPool._record, CostPool._cleanup]
    rw [hq0, abs_zero, if_pos eps_pos, if_pos hrem]
    constructor
    · dsimp only
      ring
    · dsimp only
      ring
  · intro hlt hrem
    rw [min_eq_right hlt.le]
    dsimp only [CostPool._record, CostPool._cleanup]
    rw [hq0, abs_zero, if_pos eps_pos, if_neg (not_lt.mpr hrem)]
    exact ⟨rfl, rfl⟩

/-- C2 amended witness (concrete scenario 3): short open `sell(2, 5000)`
then `buy(2, 7665)` returns cost basis 5000 — the locked-in proceeds, not
7665. -/
theorem claim_C2_short_close_amended_witness :
    ((((CostPool.init "W").sell 2 5000).2).buy 2 7665).1 = .ok 5000 := by
  have havg : (((CostPool.init "W").sell 2 5000).2).avg_cost = 2500 := by
    norm_num [CostPool.sell, CostPool.init, CostPool.is_long, CostPool.is_short,
      CostPool.avg_cost, CostPool._cleanup, CostPool._record, eps]
  have hmin : min 2 |(((CostPool.init "W").sell 2 5000).2)._quantity| = 2 := by
    norm_num [CostPool.sell, CostPool.init, CostPool.is_long, CostPool.is_short,
      CostPool.avg_cost, CostPool._cleanup, CostPool._record, eps]
  have h := (claim_C2_short_close_amended (((CostPool.init "W").sell 2 5000).2)
    2 7665 (by norm_num [CostPool.sell, CostPool.init, CostPool.is_long,
      CostPool.is_short, CostPool._record, eps]) (by norm_num) (by norm_num)).1
  rw [h, hmin, havg]
  simp only [Except.ok.injEq]
  norm_num

lemma cleanup_zero (p : CostPool) (h : p._quantity = 0) :
    p._cleanup = { p with _quantity := 0, _total_cost := 0 } := by
  rw [CostPool._cleanup, if_pos (by rw [h, abs_zero]; exact eps_pos)]

lemma cleanup_stay (p : CostPool) (h : ¬ |p._quantity| < eps) : p._cleanup = p := by
  rw [CostPool._cleanup, if_neg h]

/-- C4 counterexample.  The flat-snap invariant does not hold for every
reachable state: a buy of `1e-10` units on a fresh pool succeeds and leaves
`0 < |quantity| < ε` with a nonzero total cost. -/
theorem claim_C4_flat_snap_counterexample :
    exceptOk (((CostPool.init "T").buy (1 / 10000000000) 5).1) = true ∧
    |((CostPool.init "T").buy (1 / 10000000000) 5).2._quantity| < eps ∧
    ((CostPool.init "T").buy (1 / 10000000000) 5).2._quantity ≠ 0 ∧
    ((CostPool.init "T").buy (1 / 10000000000) 5).2._total_cost ≠ 0 := by
  refine ⟨?_, ?_, ?_, ?_⟩ <;>
    norm_num [CostPool.buy, CostPool.init, CostPool.is_short, CostPool._record,
      exceptOk, eps, abs_of_pos]

lemma buy_short_state_big (p : CostPool) (qty a : ℚ) (hs : p.is_short = true)
    (h0 : 0 < qty) (ha : 0 ≤ a) (hlt : |p._quantity| < qty)
    (hrem : eps < qty - |p._quantity|) :
    (p.buy qty a).2._quantity = qty - |p._quantity| ∧
    (p.buy qty a).2._total_cost = a * ((qty - |p._quantity|) / qty) := by
  have hq : p._quantity < -eps := (is_short_iff p).mp hs
  have habs : |p._quantity| = -p._quantity := abs_of_neg (by linarith [eps_pos])
  have hq0 : p._quantity + |p._quantity| = 0 := by rw [habs]; ring
  rw [CostPool.buy, if_neg (not_le.mpr h0), if_neg (not_lt.mpr ha), hs, if_pos rfl]
  rw [min_eq_right hlt.le]
  dsimp only [CostPool._record, CostPool._cleanup]
  rw [hq0, abs_zero, if_pos eps_pos, if_pos hrem]
  constructor
  · dsimp only
    ring
  · dsimp only
    ring

lemma buy_short_state_dust (p : CostPool) (qty a : ℚ) (hs : p.is_short = true)
    (h0 : 0 < qty) (ha : 0 ≤ a) (hlt : |p._quantity| < qty)
    (hrem : qty - |p._quantity| ≤ eps) :
    (p.buy qty a).2._quantity = 0 ∧ (p.buy qty a).2._total_cost = 0 := by
  have hq : p._quantity < -eps := (is_short_iff p).mp hs
  have habs : |p._quantity| = -p._quantity := abs_of_neg (by linarith [eps_pos])
  have hq0 : p._quantity + |p._quantity| = 0 := by rw [habs]; ring
  rw [CostPool.buy, if_neg (not_le.mpr h0), if_neg (not_lt.mpr ha), hs, if_pos rfl]
  rw [min_eq_right hlt.le]
  dsimp only [CostPool._record, CostPool._cleanup]
  rw [hq0, abs_zero, if_pos eps_pos, if_neg (not_lt.mpr hrem)]
  exact ⟨rfl, rfl⟩

lemma buy_short_state_close (p : CostPool) (qty a : ℚ) (hs : p.is_short = true)
    (h0 : 0 < qty) (ha : 0 ≤ a) (hge : qty ≤ |p._quantity|) :
    (|p._quantity + qty| < eps →
      (p.buy qty a).2._quantity = 0 ∧ (p.buy qty a).2._total_cost = 0) ∧
    (¬ |p._quantity + qty| < eps →
      (p.buy qty a).2._quantity = p._quantity + qty ∧
      (p.buy qty a).2._total_cost = p._total_cost - qty * p.avg_cost) := by
  rw [CostPool.buy, if_neg (not_le.mpr h0), if_neg (not_lt.mpr ha), hs, if_pos rfl]
  rw [min_eq_left hge]
  have hrem : ¬ eps < qty - qty := by
    rw [sub_self]
    exact not_lt.mpr (le_of_lt eps_pos)
  dsimp only [CostPool._record, CostPool._cleanup]
  rw [if_neg hrem]
  constructor
  · intro hc
    rw [if_pos hc]
    exact ⟨rfl, rfl⟩
  · intro hc
    rw [if_neg hc]
    exact ⟨rfl, rfl⟩

/-- C4 amended.  The snap applies to the closing branches: a successful
sell on a long pool, or buy on a short pool, that brings `|quantity|` below
ε leaves quantity and total cost exactly 0.  Opening or extending trades
with sub-ε quantities are not snapped (see the counterexample). -/
theorem claim_C4_flat_snap_amended (p : CostPool) (qty a : ℚ) :
    (p.is_long = true → 0 < qty → qty ≤ p._quantity + eps →
      |(p.sell qty a).2._quantity| < eps →
      (p.sell qty a).2._quantity = 0 ∧ (p.sell qty a).2._total_cost = 0) ∧
    (p.is_short = true → 0 < qty → 0 ≤ a →
      |(p.buy qty a).2._quantity| < eps →
      (p.buy qty a).2._quantity = 0 ∧ (p.buy qty a).2._total_cost = 0) := by
  constructor
  · intro hl h0 hg hflat
    rw [sell_long_ok p qty a hl h0 hg] at hflat ⊢
    rw [record_quantity] at hflat
    rw [record_quantity, record_total]
    by_cases hc : |p._quantity - qty| < eps
    · rw [CostPool._cleanup, if_pos hc]
      exact ⟨rfl, rfl⟩
    · rw [CostPool._cleanup, if_neg hc] at hflat
      exact absurd hflat hc
  · intro hs h0 ha hflat
    by_cases hq_lt : |p._quantity| < qty
    · by_cases hr : eps < qty - |p._quantity|
      · obtain ⟨hq', -⟩ := buy_short_state_big p qty a hs h0 ha hq_lt hr
        rw [hq'] at hflat
        rw [abs_of_pos (by linarith)] at hflat
        linarith
      · exact buy_short_state_dust p qty a hs h0 ha hq_lt (not_lt.mp hr)
    · have h' := buy_short_state_close p qty a hs h0 ha (not_lt.mp hq_lt)
      by_cases hc : |p._quantity + qty| < eps
      · exact h'.1 hc
      · obtain ⟨hq', -⟩ := h'.2 hc
        rw [hq'] at hflat
        exact absurd hflat hc

/-- C4 amended witness: a full close of a 10-unit long and a full close of
a 2-unit short both land exactly on zero quantity and zero total. -/
theorem claim_C4_flat_snap_amended_witness :
    (((((CostPool.init "W").buy 10 100).2).sell 10 0).2._quantity = 0 ∧
     ((((CostPool.init "W").buy 10 100).2).sell 10 0).2._total_cost = 0) ∧
    (((((CostPool.init "W").sell 2 5000).2).buy 2 7665).2._quantity = 0 ∧
     ((((CostPool.init "W").sell 2 5000).2).buy 2 7665).2._total_cost = 0) :=
  ⟨(claim_C4_flat_snap_amended (((CostPool.init "W").buy 10 100).2) 10 0).1
      (by norm_num [CostPool.buy, CostPool.sell, CostPool.init, CostPool.is_long,
        CostPool.is_short, CostPool.avg_cost, CostPool._cleanup, CostPool._record,
        eps])
      (by norm_num)
      (by norm_num [CostPool.buy, CostPool.sell, CostPool.init, CostPool.is_long,
        CostPool.is_short, CostPool.avg_cost, CostPool._cleanup, CostPool._record,
        eps])
      (by norm_num [CostPool.buy, CostPool.sell, CostPool.init, CostPool.is_long,
        CostPool.is_short, CostPool.avg_cost, CostPool._cleanup, CostPool._record,
        eps]),
   (claim_C4_flat_snap_amended (((CostPool.init "W").sell 2 5000).2) 2 7665).2
      (by norm_num [CostPool.buy, CostPool.sell, CostPool.init, CostPool.is_long,
        CostPool.is_short, CostPool.avg_cost, CostPool._cleanup, CostPool._record,
        eps])
      (by norm_num)
      (by norm_num)
      (by norm_num [CostPool.buy, CostPool.sell, CostPool.init, CostPool.is_long,
        CostPool.is_short, CostPool.avg_cost, CostPool._cleanup, CostPool._record,
        eps])⟩

/-- C6.  `settle_buy` returns
`(quantity * price * multiplier(symbol) + fees) * rate`, where the rate is
the exchange rate looked up for the order's execution date and currency;
in particular the fee-bearing USD buy of scenario 5 settles to
`(30*580+5)*7.3 = 127056.5`. -/
theorem claim_C6_settle_buy_formula (s : SettlementCalculator) (o : Order) :
    s.settle_buy o =
      (o.quantity * o.price * get_multiplier o.symbol + _extract_fees o.fees) *
        s.exchange.get_rate (_parse_date o.executed_at) o.currency "CNY" ∧
    SettlementCalculator.settle_buy ⟨⟨fun _ _ _ => 73 / 10⟩⟩
      { order_id := "O1", symbol := "SPY.US", side := "BUY", quantity := 30,
        price := 580, currency := "USD",
        executed_at := ⟨⟨2024, 12, 1⟩, 10, 0, 0⟩,
        fees := .someDict (.conv 5) } = 1270565 / 10 := by
  constructor
  · rfl
  · have hm : get_multiplier "SPY.US" = 1 := by with_unfolding_all decide
    norm_num [SettlementCalculator.settle_buy, SettlementCalculator._get_rate,
      _gross, _extract_fees, pyFloat, hm]

/-- C7.  Fee extraction is total and degrades to zero on malformed data:
falsy fee data, a missing `total_amount`, and any value whose conversion
raises all give fee 0, and both settlement functions are total functions
of the order (no fee shape makes them fail). -/
theorem claim_C7_fee_extraction_total (s : SettlementCalculator) (o : Order)
    (t : FeeTotalField) (e : String) :
    _extract_fees .falsy = 0 ∧
    _extract_fees (.someDict .missing) = 0 ∧
    (pyFloat t = .error e → _extract_fees (.someDict t) = 0) ∧
    s.settle_buy o = (_gross o + _extract_fees o.fees) * s._get_rate o ∧
    (s.settle_sell_with_rate o).1 =
      (_gross o - _extract_fees o.fees) * s._get_rate o := by
  refine ⟨rfl, rfl, ?_, rfl, rfl⟩
  intro he
  cases t
  case missing => simp [pyFloat] at he
  case conv q => simp [pyFloat] at he
  case valueError => rfl
  case typeError => rfl

/-- C7 witness: a non-numeric `total_amount` (conversion raises
`ValueError`) yields fee 0. -/
theorem claim_C7_fee_extraction_total_witness :
    _extract_fees (.someDict .valueError) = 0 :=
  (claim_C7_fee_extraction_total ⟨⟨fun _ _ _ => 1⟩⟩
    { order_id := "O1", symbol := "A", side := "BUY", quantity := 1,
      price := 1, currency := "USD", executed_at := ⟨⟨2024, 1, 1⟩, 0, 0, 0⟩,
      fees := .falsy } .valueError "ValueError").2.2.1 rfl

lemma calcLoop_totals (c : TaxCalculator) (year : Int) (syms : List String) :
    ∀ res0 res : CalcResult, c.calcLoop year syms res0 = .ok res →
      res.total_gains - summaryGains res.summary =
        res0.total_gains - summaryGains res0.summary ∧
      res.total_losses - summaryLosses res.summary =
        res0.total_losses - summaryLosses res0.summary := by
  induction syms with
  | nil =>
    intro res0 res h
    simp only [TaxCalculator.calcLoop, Except.ok.injEq] at h
    subst h
    exact ⟨rfl, rfl⟩
  | cons sym rest ih =>
    intro res0 res h
    simp only [TaxCalculator.calcLoop] at h
    cases hps : c._process_symbol sym year with
    | error e => rw [hps] at h; simp at h
    | ok r =>
      rw [hps] at h
      have hih := ih _ res h
      have hg : summaryGains (res0.summary ++ [(sym, r.summary)]) =
          summaryGains res0.summary + r.summary.gains := by
        simp [summaryGains]
      have hl : summaryLosses (res0.summary ++ [(sym, r.summary)]) =
          summaryLosses res0.summary + r.summary.losses := by
        simp [summaryLosses]
      rw [hg, hl] at hih
      constructor
      · have := hih.1
        dsimp only at this
        linarith
      · have := hih.2
        dsimp only at this
        linarith

/-- C8.  For every successful calculation run, net gains are
`max(0, Σgains - Σlosses)` where the sums run across all instruments in the
per-symbol summary before the zero-floor is applied, and the total tax is
`net gains * tax_rate`. -/
theorem claim_C8_net_gains_floor (c : TaxCalculator) (year : Int)
    (res : CalcResult) (h : c.calculate year = .ok res) :
    res.net_gains = max 0 (summaryGains res.summary - summaryLosses res.summary) ∧
    res.total_tax = res.net_gains * c.tax_rate := by
  simp only [TaxCalculator.calculate] at h
  by_cases hs : c.db.get_symbols_with_sells year = []
  · rw [if_pos hs] at h
    simp only [Except.ok.injEq] at h
    subst h
    constructor
    · simp [TaxCalculator._empty_result, summaryGains, summaryLosses]
    · simp [TaxCalculator._empty_result]
  · rw [if_neg hs] at h
    cases hcl : c.calcLoop year (c.db.get_symbols_with_sells year)
        (TaxCalculator._empty_result year) with
    | error e => rw [hcl] at h; simp at h
    | ok r =>
      rw [hcl] at h
      simp only [Except.ok.injEq] at h
      subst h
      have ht := calcLoop_totals c year _ _ _ hcl
      have hg : r.total_gains = summaryGains r.summary := by
        have h1 := ht.1
        have h2 : summaryGains (TaxCalculator._empty_result year).summary = 0 := by
          simp [TaxCalculator._empty_result, summaryGains]
        have h3 : (TaxCalculator._empty_result year).total_gains = 0 := rfl
        rw [h2, h3] at h1
        linarith
      have hl : r.total_losses = summaryLosses r.summary := by
        have h1 := ht.2
        have h2 : summaryLosses (TaxCalculator._empty_result year).summary = 0 := by
          simp [TaxCalculator._empty_result, summaryLosses]
        have h3 : (TaxCalculator._empty_result year).total_losses = 0 := rfl
        rw [h2, h3] at h1
        linarith
      exact ⟨by simp [hg, hl], rfl⟩

/-- C8 witness: the concrete one-symbol run nets 10 of gain and 2 of tax at
rate 20%, matching the floored cross-symbol formula. -/
theorem claim_C8_net_gains_floor_witness :
    wCalc.calculate 2024 = .ok wRes ∧
    (wRes.net_gains =
        max 0 (summaryGains wRes.summary - summaryLosses wRes.summary) ∧
      wRes.total_tax = wRes.net_gains * wCalc.tax_rate) :=
  ⟨by norm_num [TaxCalculator.calculate, TaxCalculator.calcLoop,
      TaxCalculator._process_symbol, TaxCalculator.processOrders,
      TaxCalculator._process_order, TaxCalculator._in_year,
      TaxCalculator._build_tx, TaxCalculator._empty_result,
      wCalc, wDb, wSettle, wRate, wBuyOrder, wSellOrder, wRes, wTx,
      SettlementCalculator.settle_buy, SettlementCalculator.settle_sell_with_rate,
      SettlementCalculator.get_rate_for_order, SettlementCalculator._get_rate,
      _gross, _extract_fees, _parse_date, get_multiplier, hasOptTail,
      matchOptTail, CostPool.buy, CostPool.sell, CostPool.init,
      CostPool.is_long, CostPool.is_short, CostPool.avg_cost,
      CostPool._cleanup, CostPool._record, eps,
      eq_false (show ¬ ("SELL" : String) = "BUY" by decide)],
   claim_C8_net_gains_floor wCalc 2024 wRes
     (by norm_num [TaxCalculator.calculate, TaxCalculator.calcLoop,
       TaxCalculator._process_symbol, TaxCalculator.processOrders,
       TaxCalculator._process_order, TaxCalculator._in_year,
       TaxCalculator._build_tx, TaxCalculator._empty_result,
       wCalc, wDb, wSettle, wRate, wBuyOrder, wSellOrder, wRes, wTx,
       SettlementCalculator.settle_buy, SettlementCalculator.settle_sell_with_rate,
       SettlementCalculator.get_rate_for_order, SettlementCalculator._get_rate,
       _gross, _extract_fees, _parse_date, get_multiplier, hasOptTail,
       matchOptTail, CostPool.buy, CostPool.sell, CostPool.init,
       CostPool.is_long, CostPool.is_short, CostPool.avg_cost,
       CostPool._cleanup, CostPool._record, eps,
       eq_false (show ¬ ("SELL" : String) = "BUY" by decide)])⟩

lemma processOrders_nil (c : TaxCalculator) (year : Int) (st : ReplayState) :
    c.processOrders year [] st = .ok st := rfl

lemma processOrders_cons (c : TaxCalculator) (year : Int) (o : Order)
    (rest : List Order) (st st' : ReplayState)
    (h : c._process_order year st o = .ok st') :
    c.processOrders year (o :: rest) st = c.processOrders year rest st' := by
  simp only [TaxCalculator.processOrders, h]

lemma processOrder_buy_out (c : TaxCalculator) (year : Int) (st : ReplayState)
    (o : Order) (hside : o.side = "BUY")
    (hyear : TaxCalculator._in_year o year = false)
    (hok : exceptOk (st.pool.buy o.quantity (c.settlement.settle_buy o)).1 = true) :
    c._process_order year st o =
      .ok { st with pool := (st.pool.buy o.quantity (c.settlement.settle_buy o)).2 } := by
  cases hcb : (st.pool.buy o.quantity (c.settlement.settle_buy o)).1 with
  | error e => rw [hcb] at hok; simp [exceptOk] at hok
  | ok cb =>
    dsimp only [TaxCalculator._process_order]
    rw [if_pos hside, hcb]
    dsimp only
    rw [hyear, if_neg (by simp)]

lemma processOrder_buy_zero (c : TaxCalculator) (year : Int) (st : ReplayState)
    (o : Order) (hside : o.side = "BUY")
    (hcb : (st.pool.buy o.quantity (c.settlement.settle_buy o)).1 = .ok 0) :
    c._process_order year st o =
      .ok { st with pool := (st.pool.buy o.quantity (c.settlement.settle_buy o)).2 } := by
  dsimp only [TaxCalculator._process_order]
  rw [if_pos hside, hcb]
  dsimp only
  rw [if_neg (by simp)]

lemma processOrder_sell_out (c : TaxCalculator) (year : Int) (st : ReplayState)
    (o : Order) (hside : o.side = "SELL")
    (hyear : TaxCalculator._in_year o year = false)
    (hok : exceptOk
      (st.pool.sell o.quantity (c.settlement.settle_sell_with_rate o).1).1 = true) :
    c._process_order year st o =
      .ok { st with
        pool := (st.pool.sell o.quantity (c.settlement.settle_sell_with_rate o).1).2 } := by
  cases hcb : (st.pool.sell o.quantity (c.settlement.settle_sell_with_rate o).1).1 with
  | error e => rw [hcb] at hok; simp [exceptOk] at hok
  | ok cb =>
    dsimp only [TaxCalculator._process_order]
    rw [if_neg (by rw [hside]; decide), if_pos hside, hcb]
    dsimp only
    rw [hyear, if_neg (by simp)]

lemma processOrder_sell_close (c : TaxCalculator) (year : Int) (st : ReplayState)
    (o : Order) (cb : ℚ) (hside : o.side = "SELL")
    (hyear : TaxCalculator._in_year o year = true)
    (hcb : (st.pool.sell o.quantity (c.settlement.settle_sell_with_rate o).1).1 = .ok cb)
    (hpos : 0 < cb) :
    c._process_order year st o = .ok
      { pool := (st.pool.sell o.quantity (c.settlement.settle_sell_with_rate o).1).2
        transactions := st.transactions ++
          [c._build_tx o (c.settlement.settle_sell_with_rate o).2
            (c.settlement.settle_sell_with_rate o).1 cb
            ((c.settlement.settle_sell_with_rate o).1 - cb)]
        total_gains :=
          if (c.settlement.settle_sell_with_rate o).1 - cb > 0 then
            st.total_gains + ((c.settlement.settle_sell_with_rate o).1 - cb)
          else st.total_gains
        total_losses :=
          if (c.settlement.settle_sell_with_rate o).1 - cb > 0 then
            st.total_losses
          else st.total_losses + |(c.settlement.settle_sell_with_rate o).1 - cb| } := by
  dsimp only [TaxCalculator._process_order]
  rw [if_neg (by rw [hside]; decide), if_pos hside, hcb]
  dsimp only
  rw [hyear, if_pos ⟨hpos, rfl⟩]

lemma processOrder_buy_close (c : TaxCalculator) (year : Int) (st : ReplayState)
    (o : Order) (cb : ℚ) (hside : o.side = "BUY")
    (hyear : TaxCalculator._in_year o year = true)
    (hcb : (st.pool.buy o.quantity (c.settlement.settle_buy o)).1 = .ok cb)
    (hpos : 0 < cb) :
    c._process_order year st o = .ok
      { pool := (st.pool.buy o.quantity (c.settlement.settle_buy o)).2
        transactions := st.transactions ++
          [c._build_tx o (c.settlement.get_rate_for_order o) cb
            (c.settlement.settle_buy o) (cb - c.settlement.settle_buy o)]
        total_gains :=
          if cb - c.settlement.settle_buy o > 0 then
            st.total_gains + (cb - c.settlement.settle_buy o)
          else st.total_gains
        total_losses :=
          if cb - c.settlement.settle_buy o > 0 then
            st.total_losses
          else st.total_losses + |cb - c.settlement.settle_buy o| } := by
  dsimp only [TaxCalculator._process_order]
  rw [if_pos hside, hcb]
  dsimp only
  rw [hyear, if_pos ⟨hpos, rfl⟩]

/-- C1.  Year-scoped replay: an out-of-year BUY or SELL that the pool
accepts mutates the pool exactly as the pool operation prescribes and
emits no taxable transaction; an in-year closing SELL (positive returned
cost basis) or closing BUY emits exactly one taxable transaction whose
gain/loss is proceeds minus cost basis; and for a position bought entirely
in year Y-1 and sold in year Y, the year-Y run emits exactly one
transaction priced at the Y-1 average cost while the year-(Y-1) run emits
none. -/
theorem claim_C1_year_scoped_replay (c : TaxCalculator) (year : Int)
    (st : ReplayState) (o : Order) (sym : String) (b s : Order) :
    (o.side = "BUY" → TaxCalculator._in_year o year = false →
      exceptOk (st.pool.buy o.quantity (c.settlement.settle_buy o)).1 = true →
      c._process_order year st o =
        .ok { st with
          pool := (st.pool.buy o.quantity (c.settlement.settle_buy o)).2 }) ∧
    (o.side = "SELL" → TaxCalculator._in_year o year = false →
      exceptOk
        (st.pool.sell o.quantity (c.settlement.settle_sell_with_rate o).1).1 = true →
      c._process_order year st o =
        .ok { st with
          pool := (st.pool.sell o.quantity
            (c.settlement.settle_sell_with_rate o).1).2 }) ∧
    (∀ cb : ℚ, o.side = "SELL" → TaxCalculator._in_year o year = true →
      (st.pool.sell o.quantity (c.settlement.settle_sell_with_rate o).1).1 = .ok cb →
      0 < cb →
      c._process_order year st o = .ok
        { pool := (st.pool.sell o.quantity (c.settlement.settle_sell_with_rate o).1).2
          transactions := st.transactions ++
            [c._build_tx o (c.settlement.settle_sell_with_rate o).2
              (c.settlement.settle_sell_with_rate o).1 cb
              ((c.settlement.settle_sell_with_rate o).1 - cb)]
          total_gains :=
            if (c.settlement.settle_sell_with_rate o).1 - cb > 0 then
              st.total_gains + ((c.settlement.settle_sell_with_rate o).1 - cb)
            else st.total_gains
          total_losses :=
            if (c.settlement.settle_sell_with_rate o).1 - cb > 0 then
              st.total_losses
            else st.total_losses + |(c.settlement.settle_sell_with_rate o).1 - cb| }) ∧
    (∀ cb : ℚ, o.side = "BUY" → TaxCalculator._in_year o year = true →
      (st.pool.buy o.quantity (c.settlement.settle_buy o)).1 = .ok cb →
      0 < cb →
      c._process_order year st o = .ok
        { pool := (st.pool.buy o.quantity (c.settlement.settle_buy o)).2
          transactions := st.transactions ++
            [c._build_tx o (c.settlement.get_rate_for_order o) cb
              (c.settlement.settle_buy o) (cb - c.settlement.settle_buy o)]
          total_gains :=
            if cb - c.settlement.settle_buy o > 0 then
              st.total_gains + (cb - c.settlement.settle_buy o)
            else st.total_gains
          total_losses :=
            if cb - c.settlement.settle_buy o > 0 then
              st.total_losses
            else st.total_losses + |cb - c.settlement.settle_buy o| }) ∧
    (b.side = "BUY" → s.side = "SELL" →
      b.executed_at.date.year = year - 1 → s.executed_at.date.year = year →
      eps < b.quantity → 0 < s.quantity → s.quantity ≤ b.quantity →
      0 < c.settlement.settle_buy b →
      c.db.get_orders_until sym year = [b, s] →
      c.db.get_orders_until sym (year - 1) = [b] →
      symTxs (c._process_symbol sym year) =
        some [c._build_tx s (c.settlement.settle_sell_with_rate s).2
          (c.settlement.settle_sell_with_rate s).1
          (s.quantity * (c.settlement.settle_buy b / b.quantity))
          ((c.settlement.settle_sell_with_rate s).1 -
            s.quantity * (c.settlement.settle_buy b / b.quantity))] ∧
      symTxs (c._process_symbol sym (year - 1)) = some []) := by
  refine ⟨processOrder_buy_out c year st o, processOrder_sell_out c year st o,
    fun cb hside hyear hcb hpos =>
      processOrder_sell_close c year st o cb hside hyear hcb hpos,
    fun cb hside hyear hcb hpos =>
      processOrder_buy_close c year st o cb hside hyear hcb hpos, ?_⟩
  intro hbs hss hby hsy hbq hsq hle hsb hdb24 hdb23
  have h0b : 0 < b.quantity := lt_trans eps_pos hbq
  have h0s : 0 < s.quantity := hsq
  have hbuy := buy_not_short (CostPool.init sym) b.quantity
    (c.settlement.settle_buy b) h0b (le_of_lt hsb)
    (by norm_num [CostPool.is_short, CostPool.init, eps])
  have hXq : ((CostPool.init sym).buy b.quantity
      (c.settlement.settle_buy b)).2._quantity = b.quantity := by
    rw [hbuy]
    simp [CostPool._record, CostPool.init]
  have hXt : ((CostPool.init sym).buy b.quantity
      (c.settlement.settle_buy b)).2._total_cost = c.settlement.settle_buy b := by
    rw [hbuy]
    simp [CostPool._record, CostPool.init]
  have hXavg : ((CostPool.init sym).buy b.quantity
      (c.settlement.settle_buy b)).2.avg_cost =
      c.settlement.settle_buy b / b.quantity := by
    rw [CostPool.avg_cost, hXq, hXt, abs_of_pos h0b,
      if_neg (not_lt.mpr (le_of_lt hbq))]
  have hlong : ((CostPool.init sym).buy b.quantity
      (c.settlement.settle_buy b)).2.is_long = true := by
    rw [is_long_iff, hXq]
    exact hbq
  have hguard : s.quantity ≤ ((CostPool.init sym).buy b.quantity
      (c.settlement.settle_buy b)).2._quantity + eps := by
    rw [hXq]
    linarith [eps_pos]
  have hsell := sell_long_ok (((CostPool.init sym).buy b.quantity
      (c.settlement.settle_buy b)).2) s.quantity
    (c.settlement.settle_sell_with_rate s).1 hlong h0s hguard
  have hcb : ((((CostPool.init sym).buy b.quantity
      (c.settlement.settle_buy b)).2).sell s.quantity
      (c.settlement.settle_sell_with_rate s).1).1 =
      .ok (s.quantity * (((CostPool.init sym).buy b.quantity
        (c.settlement.settle_buy b)).2).avg_cost) := by
    rw [hsell]
  have hcbpos : 0 < s.quantity * (((CostPool.init sym).buy b.quantity
      (c.settlement.settle_buy b)).2).avg_cost := by
    rw [hXavg]
    exact mul_pos hsq (div_pos hsb h0b)
  have hs_year : TaxCalculator._in_year s year = true := by
    simp [TaxCalculator._in_year, hsy]
  have hstep1 := processOrder_buy_zero c year
    ⟨CostPool.init sym, [], 0, 0⟩ b hbs (by rw [hbuy])
  have hstep1m := processOrder_buy_zero c (year - 1)
    ⟨CostPool.init sym, [], 0, 0⟩ b hbs (by rw [hbuy])
  have hstep2 := processOrder_sell_close c year
    ⟨((CostPool.init sym).buy b.quantity (c.settlement.settle_buy b)).2, [], 0, 0⟩
    s (s.quantity * (((CostPool.init sym).buy b.quantity
      (c.settlement.settle_buy b)).2).avg_cost) hss hs_year hcb hcbpos
  constructor
  · dsimp only [TaxCalculator._process_symbol]
    rw [hdb24]
    rw [processOrders_cons _ _ _ _ _ _ hstep1]
    dsimp only
    rw [processOrders_cons _ _ _ _ _ _ hstep2]
    rw [processOrders_nil]
    dsimp only [symTxs]
    rw [hXavg]
    rfl
  · dsimp only [TaxCalculator._process_symbol]
    rw [hdb23]
    rw [processOrders_cons _ _ _ _ _ _ hstep1m]
    dsimp only
    rw [processOrders_nil]
    dsimp only [symTxs]

/-- C1 witness: on concrete year-boundary data (buy 10 at cost 20 in 2023,
sell 4 at proceeds 12 in 2024), the out-of-year buy and sell emit nothing,
the in-year closing sell emits one transaction with cost basis 8, the
in-year short-closing buy emits one transaction with cost basis 50, and the
two-order replay produces exactly one 2024 transaction at the 2023 average
cost and none for 2023. -/
theorem claim_C1_year_scoped_replay_witness :
    stepTxs (wCalc2._process_order 2024
      ⟨CostPool.init "A", [], 0, 0⟩ wBuyOrder23) = some [] ∧
    stepTxs (wCalc2._process_order 2023
      ⟨((CostPool.init "A").buy 10 20).2, [], 0, 0⟩ wSellOrder24) = some [] ∧
    stepTxs (wCalc2._process_order 2024
      ⟨((CostPool.init "A").buy 10 20).2, [], 0, 0⟩ wSellOrder24) =
      some [wCalc2._build_tx wSellOrder24
        (wCalc2.settlement.settle_sell_with_rate wSellOrder24).2
        (wCalc2.settlement.settle_sell_with_rate wSellOrder24).1 8
        ((wCalc2.settlement.settle_sell_with_rate wSellOrder24).1 - 8)] ∧
    stepTxs (wCalc2._process_order 2024
      ⟨((CostPool.init "A").sell 5 50).2, [], 0, 0⟩ wBuyOrder) =
      some [wCalc2._build_tx wBuyOrder
        (wCalc2.settlement.get_rate_for_order wBuyOrder) 50
        (wCalc2.settlement.settle_buy wBuyOrder)
        (50 - wCalc2.settlement.settle_buy wBuyOrder)] ∧
    (symTxs (wCalc2._process_symbol "A" 2024) =
      some [wCalc2._build_tx wSellOrder24
        (wCalc2.settlement.settle_sell_with_rate wSellOrder24).2
        (wCalc2.settlement.settle_sell_with_rate wSellOrder24).1
        (wSellOrder24.quantity *
          (wCalc2.settlement.settle_buy wBuyOrder23 / wBuyOrder23.quantity))
        ((wCalc2.settlement.settle_sell_with_rate wSellOrder24).1 -
          wSellOrder24.quantity *
          (wCalc2.settlement.settle_buy wBuyOrder23 / wBuyOrder23.quantity))] ∧
      symTxs (wCalc2._process_symbol "A" 2023) = some []) := by
  refine ⟨?_, ?_, ?_, ?_, ?_⟩
  · have h := (claim_C1_year_scoped_replay wCalc2 2024
      ⟨CostPool.init "A", [], 0, 0⟩ wBuyOrder23 "A" wBuyOrder23 wSellOrder24).1
      rfl
      (by simp [TaxCalculator._in_year, wBuyOrder23])
      (by norm_num [CostPool.buy, CostPool.init, CostPool.is_short,
        CostPool._record, exceptOk, eps, wBuyOrder23, wCalc2, wSettle, wRate,
        SettlementCalculator.settle_buy, SettlementCalculator._get_rate, _gross,
        _extract_fees, _parse_date, get_multiplier, hasOptTail, matchOptTail])
    rw [h]
    rfl
  · have h := (claim_C1_year_scoped_replay wCalc2 2023
      ⟨((CostPool.init "A").buy 10 20).2, [], 0, 0⟩ wSellOrder24 "A"
      wBuyOrder23 wSellOrder24).2.1
      rfl
      (by simp [TaxCalculator._in_year, wSellOrder24])
      (by norm_num [CostPool.buy, CostPool.sell, CostPool.init,
        CostPool.is_short, CostPool.is_long, CostPool.avg_cost,
        CostPool._cleanup, CostPool._record, exceptOk, eps, wSellOrder24,
        wCalc2, wSettle, wRate, SettlementCalculator.settle_sell_with_rate,
        SettlementCalculator._get_rate, _gross, _extract_fees, _parse_date,
        get_multiplier, hasOptTail, matchOptTail])
    rw [h]
    rfl
  · have h := (claim_C1_year_scoped_replay wCalc2 2024
      ⟨((CostPool.init "A").buy 10 20).2, [], 0, 0⟩ wSellOrder24 "A"
      wBuyOrder23 wSellOrder24).2.2.1 8
      rfl
      (by simp [TaxCalculator._in_year, wSellOrder24])
      (by norm_num [CostPool.buy, CostPool.sell, CostPool.init,
        CostPool.is_short, CostPool.is_long, CostPool.avg_cost,
        CostPool._cleanup, CostPool._record, eps, wSellOrder24,
        wCalc2, wSettle, wRate, SettlementCalculator.settle_sell_with_rate,
        SettlementCalculator._get_rate, _gross, _extract_fees, _parse_date,
        get_multiplier, hasOptTail, matchOptTail])
      (by norm_num)
    rw [h]
    rfl
  · have h := (claim_C1_year_scoped_replay wCalc2 2024
      ⟨((CostPool.init "A").sell 5 50).2, [], 0, 0⟩ wBuyOrder "A"
      wBuyOrder23 wSellOrder24).2.2.2.1 50
      rfl
      (by simp [TaxCalculator._in_year, wBuyOrder])
      (by norm_num [CostPool.buy, CostPool.sell, CostPool.init,
        CostPool.is_short, CostPool.is_long, CostPool.avg_cost,
        CostPool._cleanup, CostPool._record, eps, wBuyOrder,
        wCalc2, wSettle, wRate, SettlementCalculator.settle_buy,
        SettlementCalculator._get_rate, _gross, _extract_fees, _parse_date,
        get_multiplier, hasOptTail, matchOptTail])
      (by norm_num)
    rw [h]
    rfl
  · have h := (claim_C1_year_scoped_replay wCalc2 2024
      ⟨CostPool.init "A", [], 0, 0⟩ wBuyOrder23 "A"
      wBuyOrder23 wSellOrder24).2.2.2.2
      rfl rfl
      (by norm_num [wBuyOrder23])
      (by norm_num [wSellOrder24])
      (by norm_num [wBuyOrder23, eps])
      (by norm_num [wSellOrder24])
      (by norm_num [wSellOrder24, wBuyOrder23])
      (by norm_num [SettlementCalculator.settle_buy,
        SettlementCalculator._get_rate, _gross, _extract_fees, _parse_date,
        get_multiplier, hasOptTail, matchOptTail, wBuyOrder23, wCalc2,
        wSettle, wRate])
      (by norm_num [wCalc2, wDb2])
      (by norm_num [wCalc2, wDb2])
    refine ⟨h.1, ?_⟩
    have he : (2023 : Int) = 2024 - 1 := by norm_num
    rw [he]
    exact h.2
